import Mathlib

/-!
# Verification of the task-management API (`src/main.py`)

Shallow embedding of the FastAPI application in `main.py`:
the SQLAlchemy-backed store becomes an explicit `Store` value threaded
through the handlers, `datetime.utcnow()` becomes an explicit `now : Nat`
(seconds), and each endpoint handler becomes a pure function returning
`Except HTTPException α` (a raised `HTTPException` is the error branch),
paired with the post-state of the store for mutating handlers.

The bcrypt hasher and the JWT validator live in external libraries whose
code is not part of this repository; they are modelled from the spec
(sections 4.1 and 4.2) and marked as such in their doc comments.
-/

/-- Equality of handler results (`Except`) is decidable, so witnesses can
be checked by evaluation. -/
instance {ε α : Type} [DecidableEq ε] [DecidableEq α] : DecidableEq (Except ε α) :=
  fun a b =>
    match a, b with
    | .error x, .error y => decidable_of_iff (x = y) (by simp)
    | .ok x, .ok y => decidable_of_iff (x = y) (by simp)
    | .error _, .ok _ => isFalse (fun hc => Except.noConfusion hc)
    | .ok _, .error _ => isFalse (fun hc => Except.noConfusion hc)

namespace TarefasApi

/-- `class TaskStatusEnum(str, Enum)` of `main.py`: `pending` / `completed`. -/
inductive TaskStatusEnum where
  | pending
  | completed
deriving DecidableEq, Repr

/-- MySQL stores an `ENUM` by its 1-based declaration index; used when a
query sorts by the `status` column. -/
def TaskStatusEnum.sqlIndex : TaskStatusEnum → Nat
  | .pending => 1
  | .completed => 2

/-- Modelled from the spec (4.1 Password Hasher): the opaque `hash_blob`
produced by `bcrypt.hashpw`.  The blob records the salt and, standing in
for the one-way digest (which is collision-free on the valid password
space per the spec contract), the hashed plaintext itself. -/
structure HashBlob where
  salt : Nat
  digest : String
deriving DecidableEq, Repr

namespace bcrypt

/-- Modelled from the spec (4.1): `bcrypt.gensalt()` draws a fresh salt
from a salt source; two separate calls yield distinct salts (salt
uniqueness).  The source is modelled as a counter state. -/
def gensalt (g : Nat) : Nat × Nat := (g, g + 1)

/-- Modelled from the spec (4.1): `bcrypt.hashpw(password, salt)` —
a salted one-way function of the plaintext; the digest determines the
plaintext injectively per the spec's verify contract. -/
def hashpw (password : String) (salt : Nat) : HashBlob :=
  { salt := salt, digest := password }

/-- Modelled from the spec (4.1): `bcrypt.checkpw(password, blob)`
re-hashes the candidate with the blob's salt and compares. -/
def checkpw (password : String) (blob : HashBlob) : Bool :=
  hashpw password blob.salt = blob

end bcrypt

/-- `class DBUser(Base)`: the persisted `users` row. -/
structure DBUser where
  id : Nat
  name : String
  email : String
  hashed_password : HashBlob
  created_at : Nat
  updated_at : Nat
deriving DecidableEq, Repr

/-- `class DBTask(Base)`: the persisted `tasks` row (`description` is the
one nullable column). -/
structure DBTask where
  id : Nat
  title : String
  description : Option String
  status : TaskStatusEnum
  user_id : Nat
  created_at : Nat
  updated_at : Nat
deriving DecidableEq, Repr

/-- The relational store behind the SQLAlchemy session: the two tables
plus the auto-increment counters for their primary keys. -/
structure Store where
  users : List DBUser
  tasks : List DBTask
  nextUserId : Nat
  nextTaskId : Nat
deriving DecidableEq, Repr

/-- `class User(BaseModel)`: the public pydantic projection — exactly
`id`, `name`, `email`, `created_at`, `updated_at`; no password hash. -/
structure User where
  id : Nat
  name : String
  email : String
  created_at : Nat
  updated_at : Nat
deriving DecidableEq, Repr

/-- `User.model_validate(db_user)`: build the public projection from a
`users` row. -/
def User.model_validate (u : DBUser) : User :=
  { id := u.id, name := u.name, email := u.email,
    created_at := u.created_at, updated_at := u.updated_at }

/-- `class Task(BaseModel)`: the task response schema. -/
structure Task where
  id : Nat
  title : String
  description : Option String
  status : TaskStatusEnum
  user_id : Nat
  created_at : Nat
  updated_at : Nat
deriving DecidableEq, Repr

/-- `Task.model_validate(db_task)`. -/
def Task.model_validate (t : DBTask) : Task :=
  { id := t.id, title := t.title, description := t.description,
    status := t.status, user_id := t.user_id,
    created_at := t.created_at, updated_at := t.updated_at }

/-- `class UserCreate(BaseModel)`: the register payload. -/
structure UserCreate where
  name : String
  email : String
  password : String
deriving DecidableEq, Repr

/-- `fastapi.HTTPException`: status code, detail message, extra headers. -/
structure HTTPException where
  status_code : Nat
  detail : String
  headers : List (String × String)
deriving DecidableEq, Repr

/-- `SECRET_KEY = "TESTE"`. -/
def SECRET_KEY : String := "TESTE"

/-- `ACCESS_TOKEN_EXPIRE_MINUTES = 30`. -/
def ACCESS_TOKEN_EXPIRE_MINUTES : Nat := 30

/-- The claim set a token carries: `{"sub": ..., "exp": ...}` before the
expiry is attached (`data` argument of `create_access_token`). -/
structure TokenData where
  sub : Option String
deriving DecidableEq, Repr

/-- The HS256 signature over a payload: a function of the configured
secret and the signed claims. -/
def sigOf (secret : String) (sub : Option String) (exp : Nat) :
    String × Option String × Nat :=
  (secret, sub, exp)

/-- An encoded JWT: signed claim set `{sub, exp}` plus its signature. -/
structure JWT where
  sub : Option String
  exp : Nat
  sig : String × Option String × Nat
deriving DecidableEq, Repr

/-- Errors of token validation (spec 4.2). -/
inductive JWTError where
  | expiredToken
  | invalidSignature
deriving DecidableEq, Repr

/-- `create_access_token(data, expires_delta)` of `main.py`: expiry is
`now + expires_delta` when a delta is passed, else
`now + ACCESS_TOKEN_EXPIRE_MINUTES`; the delta is in seconds. -/
def create_access_token (data : TokenData) (expires_delta : Option Nat)
    (now : Nat) : JWT :=
  let expire :=
    match expires_delta with
    | some d => now + d
    | none => now + ACCESS_TOKEN_EXPIRE_MINUTES * 60
  { sub := data.sub, exp := expire, sig := sigOf SECRET_KEY data.sub expire }

/-- Modelled from the spec (4.2 Token Service): `jwt.decode` (the `jose`
library, external to this repository).  Validation fails with
`InvalidSignature` when the signature does not match the configured
secret, and with `ExpiredToken` when `now >= exp`; otherwise the claim
set is returned. -/
def jwtDecode (t : JWT) (secret : String) (now : Nat) :
    Except JWTError TokenData :=
  if t.sig ≠ sigOf secret t.sub t.exp then .error .invalidSignature
  else if t.exp ≤ now then .error .expiredToken
  else .ok { sub := t.sub }

/-- The uniform 401 raised throughout `get_current_user`. -/
def credentials_exception : HTTPException :=
  { status_code := 401,
    detail := "Não foi possível validar as credenciais",
    headers := [("WWW-Authenticate", "Bearer")] }

/-- `get_current_user(db, token)`: decode the token, read `sub`, look the
user up by id (`sub` is a string, coerced by MySQL against the integer
column), and return the public projection; every failure — decode error,
missing `sub`, unknown user — raises the same `credentials_exception`. -/
def get_current_user (db : Store) (token : JWT) (now : Nat) :
    Except HTTPException User :=
  match jwtDecode token SECRET_KEY now with
  | .error _ => .error credentials_exception
  | .ok payload =>
    match payload.sub with
    | none => .error credentials_exception
    | some uid =>
      match db.users.find? (fun u => toString u.id == uid) with
      | none => .error credentials_exception
      | some u => .ok (User.model_validate u)

/-- The 409 raised by `register` on a duplicate email. -/
def emailConflict : HTTPException :=
  { status_code := 409, detail := "E-mail já registrado.", headers := [] }

/-- `register(user_create, db)`: reject with 409 if a user with that
email exists (no insert); otherwise hash the password, insert the row
(timestamps server-assigned to `now`), and return the public
projection. -/
def register (db : Store) (uc : UserCreate) (salt : Nat) (now : Nat) :
    Except HTTPException User × Store :=
  match db.users.find? (fun u => u.email == uc.email) with
  | some _ => (.error emailConflict, db)
  | none =>
    let hashed_password := bcrypt.hashpw uc.password salt
    let db_user : DBUser :=
      { id := db.nextUserId, name := uc.name, email := uc.email,
        hashed_password := hashed_password,
        created_at := now, updated_at := now }
    (.ok (User.model_validate db_user),
     { db with users := db.users ++ [db_user],
               nextUserId := db.nextUserId + 1 })

/-- The uniform 401 raised by `login` for a missing user or a failed
password check. -/
def loginException : HTTPException :=
  { status_code := 401, detail := "Credenciais inválidas",
    headers := [("WWW-Authenticate", "Bearer")] }

/-- `class TokenResponse(BaseModel)`. -/
structure TokenResponse where
  access_token : JWT
  token_type : String
deriving DecidableEq, Repr

/-- `login(form_data, db)`: look the user up by email; if absent **or**
`bcrypt.checkpw` fails, raise the same 401; on success mint a token for
`str(user.id)` with a 30-minute delta. -/
def login (db : Store) (username password : String) (now : Nat) :
    Except HTTPException TokenResponse :=
  match db.users.find? (fun u => u.email == username) with
  | none => .error loginException
  | some db_user =>
    if bcrypt.checkpw password db_user.hashed_password then
      .ok { access_token :=
              create_access_token { sub := some (toString db_user.id) }
                (some (ACCESS_TOKEN_EXPIRE_MINUTES * 60)) now,
            token_type := "bearer" }
    else .error loginException

/-- Python's `str.lower()` (basic latin range): used by the handler for
`sort_order.lower()` and to build the lowercased search pattern. -/
def pyLower (s : String) : String := String.mk (s.data.map Char.toLower)

/-- Case-insensitive substring test: SQL `column ILIKE '%needle%'` with a
lowercased needle, as built in `get_tasks`' search filter. -/
def containsSub (needle haystack : List Char) : Bool :=
  match haystack with
  | [] => needle.isEmpty
  | _ :: t => needle.isPrefixOf haystack || containsSub needle t

/-- The search predicate of `get_tasks`: title **or** description matches
`%search.lower()%` case-insensitively; `ILIKE` on a NULL description is
not a match. -/
def matchesSearch (search : String) (t : DBTask) : Bool :=
  containsSub (pyLower search).data (pyLower t.title).data ||
    (match t.description with
     | some d => containsSub (pyLower search).data (pyLower d).data
     | none => false)

/-- The four sortable columns of `DBTask` reachable through
`getattr(DBTask, sort_by)`. -/
inductive SortCol where
  | created_at
  | updated_at
  | title
  | status
deriving DecidableEq, Repr

/-- `getattr(DBTask, sort_by)`: resolve the column name, `none` when the
attribute does not exist (in Python this raises `AttributeError`). -/
def getColumn? (sort_by : String) : Option SortCol :=
  if sort_by == "created_at" then some .created_at
  else if sort_by == "updated_at" then some .updated_at
  else if sort_by == "title" then some .title
  else if sort_by == "status" then some .status
  else none

/-- Ascending key comparison of two task rows on a column (MySQL sorts
the `status` enum by declaration index). -/
def keyLeB (c : SortCol) (a b : DBTask) : Bool :=
  match c with
  | .created_at => a.created_at ≤ b.created_at
  | .updated_at => a.updated_at ≤ b.updated_at
  | .title => a.title ≤ b.title
  | .status => a.status.sqlIndex ≤ b.status.sqlIndex

/-- The `ORDER BY` relation: column `c`, descending when `d`. -/
def sortRel (c : SortCol) (d : Bool) (a b : DBTask) : Prop :=
  (if d then keyLeB c b a else keyLeB c a b) = true

instance (c : SortCol) (d : Bool) : DecidableRel (sortRel c d) :=
  fun a b => by unfold sortRel; infer_instance

/-- The 404 raised by `get_task_by_id`, `update_task` and `delete_task`
when no row matches `(id == task_id AND user_id == current_user.id)`. -/
def taskNotFound : HTTPException :=
  { status_code := 404, detail := "Tarefa não encontrada.", headers := [] }

/-- The generic 500 FastAPI answers with when a handler raises an
unhandled exception (e.g. `AttributeError` from `getattr`). -/
def internalServerError : HTTPException :=
  { status_code := 500, detail := "Internal Server Error", headers := [] }

/-- `get_tasks(...)` of `main.py`: owner filter, optional status filter,
optional case-insensitive search over title/description, `ORDER BY` the
requested column and direction, then `OFFSET (page-1)*limit LIMIT limit`.

Boundary behaviour baked into the handler, mirrored exactly:
`if search:` is Python truthiness, so an empty search string is skipped;
`if sort_by:` likewise skips ordering for an empty string; the `enum=`
keyword of `Query` is OpenAPI documentation only, so any string reaches
the handler: an unknown `sort_by` raises `AttributeError` (a 500), and a
`sort_order` other than `"desc"` (case-insensitively) sorts ascending. -/
def get_tasks (db : Store) (current_user : User)
    (status_filter : Option TaskStatusEnum) (search : Option String)
    (page limit : Nat) (sort_by sort_order : String) :
    Except HTTPException (List Task) :=
  let q0 := db.tasks.filter (fun t => t.user_id == current_user.id)
  let q1 :=
    match status_filter with
    | some st => q0.filter (fun t => t.status == st)
    | none => q0
  let q2 :=
    match search with
    | some s => if s.isEmpty then q1 else q1.filter (matchesSearch s)
    | none => q1
  if sort_by.isEmpty then
    .ok ((((q2.drop ((page - 1) * limit)).take limit).map Task.model_validate))
  else
    match getColumn? sort_by with
    | none => .error internalServerError
    | some c =>
      let sorted := List.insertionSort (sortRel c (pyLower sort_order == "desc")) q2
      .ok (((sorted.drop ((page - 1) * limit)).take limit).map Task.model_validate)

/-- `get_task_by_id(task_id, ...)`: single filter on
`(id == task_id AND user_id == current_user.id)`; 404 when no row. -/
def get_task_by_id (db : Store) (current_user : User) (task_id : Nat) :
    Except HTTPException Task :=
  match db.tasks.find? (fun t => t.id == task_id && t.user_id == current_user.id) with
  | none => .error taskNotFound
  | some t => .ok (Task.model_validate t)

/-- `class TaskUpdate(BaseModel)`: every field optional.  The outer
`Option` is pydantic's set/unset distinction (`exclude_unset`); the inner
`Option` is the JSON value, which may itself be `null`. -/
structure TaskUpdate where
  title : Option (Option String)
  description : Option (Option String)
  status : Option (Option TaskStatusEnum)
deriving DecidableEq, Repr

/-- Overwrite `old` only when the field was explicitly supplied with a
non-null value. -/
def setField {α : Type} (upd : Option (Option α)) (old : α) : α :=
  match upd with
  | some (some v) => v
  | _ => old

/-- The `setattr` loop of `update_task` over
`task_update.model_dump(exclude_unset=True)`: unset fields are absent
from the dump and left untouched; an explicitly supplied `null` is
assigned.  `title` and `status` map to `NOT NULL` columns, so flushing a
`null` there is a database integrity error (`none` result). -/
def applyUpdates (tu : TaskUpdate) (t : DBTask) : Option DBTask :=
  if tu.title = some none ∨ tu.status = some none then none
  else
    some { t with
      title := setField tu.title t.title,
      description :=
        match tu.description with
        | some v => v
        | none => t.description,
      status := setField tu.status t.status }

/-- `update_task(task_id, task_update, ...)`: same atomic
`(id AND user_id)` filter and 404 as `get_task_by_id`; apply the supplied
fields; on commit the ORM flushes an `UPDATE` only when some attribute
net-changed, and the `onupdate=func.now()` of `updated_at` fires exactly
then.  Returns the refreshed row and the post-state of the store. -/
def update_task (db : Store) (current_user : User) (task_id : Nat)
    (tu : TaskUpdate) (now : Nat) :
    Except HTTPException Task × Store :=
  match db.tasks.find? (fun t => t.id == task_id && t.user_id == current_user.id) with
  | none => (.error taskNotFound, db)
  | some t =>
    match applyUpdates tu t with
    | none => (.error internalServerError, db)
    | some t1 =>
      if t1 = t then (.ok (Task.model_validate t), db)
      else
        let t2 := { t1 with updated_at := now }
        (.ok (Task.model_validate t2),
         { db with tasks := db.tasks.map (fun x => if x.id = t.id then t2 else x) })

/-- `delete_task(task_id, ...)`: same filter and 404; on a hit the row is
deleted permanently and 204 (unit) returned. -/
def delete_task (db : Store) (current_user : User) (task_id : Nat) :
    Except HTTPException Unit × Store :=
  match db.tasks.find? (fun t => t.id == task_id && t.user_id == current_user.id) with
  | none => (.error taskNotFound, db)
  | some t => (.ok (), { db with tasks := db.tasks.filter (fun x => ¬ x.id = t.id) })

/-! ## Concrete values used by witnesses -/

/-- A fresh store: both tables empty, auto-increment counters at 1. -/
def emptyStore : Store :=
  { users := [], tasks := [], nextUserId := 1, nextTaskId := 1 }

/-- The registration payload of the spec's running example. -/
def ucAna : UserCreate :=
  { name := "Ana", email := "ana@x.com", password := "secret1" }

/-- Ana's `users` row as `register emptyStore ucAna 3 5` persists it. -/
def anaRow : DBUser :=
  { id := 1, name := "Ana", email := "ana@x.com",
    hashed_password := bcrypt.hashpw "secret1" 3,
    created_at := 5, updated_at := 5 }

/-- Ana's authenticated identity (public projection). -/
def anaUser : User :=
  { id := 1, name := "Ana", email := "ana@x.com", created_at := 5, updated_at := 5 }

/-- A store whose only task belongs to user 2, not to Ana (user 1). -/
def otherOwnerStore : Store :=
  { users := [anaRow],
    tasks := [{ id := 5, title := "Comprar leite", description := none,
                status := .pending, user_id := 2,
                created_at := 10, updated_at := 10 }],
    nextUserId := 2, nextTaskId := 6 }

/-- The token `login` mints: subject `str(user.id)`, 30-minute delta. -/
def loginToken (uid t0 : Nat) : JWT :=
  create_access_token { sub := some (toString uid) }
    (some (ACCESS_TOKEN_EXPIRE_MINUTES * 60)) t0

/-! ## Claims -/

/-- **C1.** For every authenticated user `cu` and task id `tid`, when no
task with id `tid` owned by `cu` exists in the store — whether no task
with that id exists at all or it belongs to a different owner —
`get_task_by_id`, `update_task` and `delete_task` all return the very
same 404 `taskNotFound` (so the two causes are indistinguishable), no
task data is returned, and the store is untouched. -/
theorem task_ops_uniform_not_found (db : Store) (cu : User) (tid : Nat)
    (tu : TaskUpdate) (now : Nat)
    (h : ∀ t ∈ db.tasks, ¬ (t.id = tid ∧ t.user_id = cu.id)) :
    get_task_by_id db cu tid = .error taskNotFound ∧
    update_task db cu tid tu now = (.error taskNotFound, db) ∧
    delete_task db cu tid = (.error taskNotFound, db) := by
  have hfind : db.tasks.find? (fun t => t.id == tid && t.user_id == cu.id) = none := by
    rw [List.find?_eq_none]
    intro x hx
    simpa using h x hx
  refine ⟨?_, ?_, ?_⟩ <;>
    simp [get_task_by_id, update_task, delete_task, hfind]

/-- Witness for C1 at a concrete input: task 5 exists but belongs to
user 2, so Ana's `get`/`update`/`delete` on id 5 all yield the uniform
404 and leave the store unchanged. -/
theorem task_ops_uniform_not_found_witness :
    get_task_by_id otherOwnerStore anaUser 5 = .error taskNotFound ∧
    update_task otherOwnerStore anaUser 5
        { title := none, description := none, status := none } 99 =
      (.error taskNotFound, otherOwnerStore) ∧
    delete_task otherOwnerStore anaUser 5 = (.error taskNotFound, otherOwnerStore) :=
  task_ops_uniform_not_found otherOwnerStore anaUser 5
    { title := none, description := none, status := none } 99 (by decide)

/-- **C9.** Hasher round trip (spec 4.1, hasher modelled from the spec):
`checkpw p (hashpw p salt)` holds; for `q ≠ p`, `checkpw q (hashpw p salt)`
fails; and two separate `gensalt` draws give distinct salts, so hashing
the same plaintext twice yields different blobs. -/
theorem hash_verify_round_trip (p q : String) (salt g : Nat) (hne : q ≠ p) :
    bcrypt.checkpw p (bcrypt.hashpw p salt) = true ∧
    bcrypt.checkpw q (bcrypt.hashpw p salt) = false ∧
    (bcrypt.gensalt g).1 ≠ (bcrypt.gensalt (bcrypt.gensalt g).2).1 ∧
    bcrypt.hashpw p (bcrypt.gensalt g).1 ≠
      bcrypt.hashpw p (bcrypt.gensalt (bcrypt.gensalt g).2).1 := by
  refine ⟨?_, ?_, ?_, ?_⟩
  · simp [bcrypt.checkpw, bcrypt.hashpw]
  · simp [bcrypt.checkpw, bcrypt.hashpw]
    exact hne
  · simp [bcrypt.gensalt]
  · simp [bcrypt.gensalt, bcrypt.hashpw]

/-- Witness for C9 at `p = "secret1"`, `q = "wrong"`, salt 0, salt
source 0. -/
theorem hash_verify_round_trip_witness :
    bcrypt.checkpw "secret1" (bcrypt.hashpw "secret1" 0) = true ∧
    bcrypt.checkpw "wrong" (bcrypt.hashpw "secret1" 0) = false ∧
    (bcrypt.gensalt 0).1 ≠ (bcrypt.gensalt (bcrypt.gensalt 0).2).1 ∧
    bcrypt.hashpw "secret1" (bcrypt.gensalt 0).1 ≠
      bcrypt.hashpw "secret1" (bcrypt.gensalt (bcrypt.gensalt 0).2).1 :=
  hash_verify_round_trip "secret1" "wrong" 0 0 (by decide)

/-- **C2.** A token minted for user `uid` at `t0` (as `login` mints it)
embeds expiry `t0 + 30*60` seconds; decoding at any `now < t0 + 30*60`
succeeds and `get_current_user` resolves the embedded id to the stored
user; decoding at any `now ≥ t0 + 30*60` fails with the expired-token
error (mapped to the uniform 401 by `get_current_user`). -/
theorem token_expiry_boundary (uid t0 now : Nat) (db : Store) :
    (loginToken uid t0).exp = t0 + 30 * 60 ∧
    (now < t0 + 30 * 60 →
      jwtDecode (loginToken uid t0) SECRET_KEY now = .ok { sub := some (toString uid) } ∧
      ∀ u, db.users.find? (fun v => toString v.id == toString uid) = some u →
        get_current_user db (loginToken uid t0) now = .ok (User.model_validate u)) ∧
    (t0 + 30 * 60 ≤ now →
      jwtDecode (loginToken uid t0) SECRET_KEY now = .error .expiredToken ∧
      get_current_user db (loginToken uid t0) now = .error credentials_exception) := by
  refine ⟨rfl, fun hnow => ?_, fun hnow => ?_⟩
  · have hdec : jwtDecode (loginToken uid t0) SECRET_KEY now =
        .ok { sub := some (toString uid) } := by
      simp [jwtDecode, loginToken, create_access_token, sigOf,
            ACCESS_TOKEN_EXPIRE_MINUTES]
      omega
    refine ⟨hdec, fun u hu => ?_⟩
    simp [get_current_user, hdec, hu]
  · have hdec : jwtDecode (loginToken uid t0) SECRET_KEY now =
        .error .expiredToken := by
      simp [jwtDecode, loginToken, create_access_token, sigOf,
            ACCESS_TOKEN_EXPIRE_MINUTES]
      omega
    exact ⟨hdec, by simp [get_current_user, hdec]⟩

/-- Witness for C2: a token for user 1 issued at `t0 = 0` expires at
1800 s; at `now = 29` minutes it decodes and resolves Ana; at `now = 31`
minutes it is rejected as expired. -/
theorem token_expiry_boundary_witness :
    (loginToken 1 0).exp = 0 + 30 * 60 ∧
    jwtDecode (loginToken 1 0) SECRET_KEY (29 * 60) = .ok { sub := some "1" } ∧
    get_current_user otherOwnerStore (loginToken 1 0) (29 * 60) =
      .ok (User.model_validate anaRow) ∧
    jwtDecode (loginToken 1 0) SECRET_KEY (31 * 60) = .error .expiredToken ∧
    get_current_user otherOwnerStore (loginToken 1 0) (31 * 60) =
      .error credentials_exception := by
  have h29 := token_expiry_boundary 1 0 (29 * 60) otherOwnerStore
  have h31 := token_expiry_boundary 1 0 (31 * 60) otherOwnerStore
  exact ⟨h29.1,
    (h29.2.1 (by decide)).1,
    (h29.2.1 (by decide)).2 anaRow (by decide),
    (h31.2.2 (by decide)).1,
    (h31.2.2 (by decide)).2⟩

/-- **C5.** `login` fails with the very same 401 (`loginException`,
status and message identical) when the email is unknown and when the
email is known but the password check fails — the caller cannot tell
which — and on success returns a bearer token minted for the stored
user's id. -/
theorem login_uniform_error (db : Store) (username password : String) (now : Nat) :
    (db.users.find? (fun u => u.email == username) = none →
      login db username password now = .error loginException) ∧
    (∀ u, db.users.find? (fun u => u.email == username) = some u →
      (bcrypt.checkpw password u.hashed_password = false →
        login db username password now = .error loginException) ∧
      (bcrypt.checkpw password u.hashed_password = true →
        login db username password now =
          .ok { access_token := loginToken u.id now, token_type := "bearer" })) := by
  refine ⟨fun hnone => ?_, fun u hu => ⟨fun hbad => ?_, fun hok => ?_⟩⟩
  · simp [login, hnone]
  · simp [login, hu, hbad]
  · simp [login, hu, hok, loginToken]

/-- Witness for C5 against a store holding only Ana: wrong password and
unknown email produce the identical 401; the right password yields
Ana's token. -/
theorem login_uniform_error_witness :
    login otherOwnerStore "bob@x.com" "whatever" 7 = .error loginException ∧
    login otherOwnerStore "ana@x.com" "wrong" 7 = .error loginException ∧
    login otherOwnerStore "ana@x.com" "secret1" 7 =
      .ok { access_token := loginToken 1 7, token_type := "bearer" } :=
  ⟨(login_uniform_error otherOwnerStore "bob@x.com" "whatever" 7).1 (by decide),
   ((login_uniform_error otherOwnerStore "ana@x.com" "wrong" 7).2 anaRow
      (by decide)).1 (by decide),
   ((login_uniform_error otherOwnerStore "ana@x.com" "secret1" 7).2 anaRow
      (by decide)).2 (by decide)⟩

/-- **C6.** On a store with no user for `uc.email`, the first `register`
hashes the password, persists exactly one user with that email, and
returns its public projection; a second `register` with the same email
fails with the 409 `emailConflict` and leaves the store exactly as it
was (no insert). -/
theorem register_duplicate_email_conflict (db : Store) (uc uc2 : UserCreate)
    (s1 n1 s2 n2 : Nat)
    (hfree : db.users.find? (fun u => u.email == uc.email) = none)
    (hsame : uc2.email = uc.email) :
    ∃ du db1,
      register db uc s1 n1 = (.ok (User.model_validate du), db1) ∧
      du.hashed_password = bcrypt.hashpw uc.password s1 ∧
      (db1.users.filter (fun u => u.email == uc.email)).length = 1 ∧
      register db1 uc2 s2 n2 = (.error emailConflict, db1) := by
  have hfilter : db.users.filter (fun u => u.email == uc.email) = [] := by
    rw [List.filter_eq_nil_iff]
    intro x hx
    simpa using List.find?_eq_none.mp hfree x hx
  refine ⟨{ id := db.nextUserId, name := uc.name, email := uc.email,
            hashed_password := bcrypt.hashpw uc.password s1,
            created_at := n1, updated_at := n1 },
          { db with
              users := db.users ++
                [{ id := db.nextUserId, name := uc.name, email := uc.email,
                   hashed_password := bcrypt.hashpw uc.password s1,
                   created_at := n1, updated_at := n1 }],
              nextUserId := db.nextUserId + 1 }, ?_, rfl, ?_, ?_⟩
  · simp [register, hfree]
  · simp [List.filter_append, hfilter]
  · simp [register, hsame, List.find?_append, hfree]

/-- Witness for C6: registering Ana on the empty store stores one user
with her email; registering her email again returns the 409 and leaves
that one-user store unchanged. -/
theorem register_duplicate_email_conflict_witness :
    ∃ du db1,
      register emptyStore ucAna 3 5 = (.ok (User.model_validate du), db1) ∧
      du.hashed_password = bcrypt.hashpw "secret1" 3 ∧
      (db1.users.filter (fun u => u.email == "ana@x.com")).length = 1 ∧
      register db1 { name := "Ana2", email := "ana@x.com", password := "outro99" } 8 9 =
        (.error emailConflict, db1) :=
  register_duplicate_email_conflict emptyStore ucAna
    { name := "Ana2", email := "ana@x.com", password := "outro99" }
    3 5 8 9 (by decide) (by decide)

/-- **C8.** No user-facing result of `register`, `login` or
authenticated-user resolution carries the stored password hash: the
`User` projection consists of exactly `id`, `name`, `email`,
`created_at`, `updated_at` (those five fields determine a `User`, and
the projection is independent of `hashed_password`); every `User` that
`register` or `get_current_user` returns is `User.model_validate` of a
stored row; `login` returns only a token payload. -/
theorem results_never_carry_password_hash (du : DBUser) (hb : HashBlob)
    (db : Store) (uc : UserCreate) (s n : Nat) (tok : JWT) (tnow : Nat)
    (username password : String) :
    (User.model_validate du).id = du.id ∧
    (User.model_validate du).name = du.name ∧
    (User.model_validate du).email = du.email ∧
    (User.model_validate du).created_at = du.created_at ∧
    (User.model_validate du).updated_at = du.updated_at ∧
    User.model_validate { du with hashed_password := hb } = User.model_validate du ∧
    (∀ x y : User, x.id = y.id → x.name = y.name → x.email = y.email →
      x.created_at = y.created_at → x.updated_at = y.updated_at → x = y) ∧
    (∀ r, (register db uc s n).1 = .ok r →
      ∃ v ∈ (register db uc s n).2.users, r = User.model_validate v) ∧
    (∀ r, get_current_user db tok tnow = .ok r →
      ∃ v ∈ db.users, r = User.model_validate v) ∧
    (∀ tr, login db username password tnow = .ok tr → tr.token_type = "bearer") := by
  refine ⟨rfl, rfl, rfl, rfl, rfl, rfl, ?_, ?_, ?_, ?_⟩
  · intro x y h1 h2 h3 h4 h5
    cases x; cases y
    simp_all
  · intro r hr
    rcases hcase : db.users.find? (fun u => u.email == uc.email) with _ | u
    · simp only [register, hcase] at hr ⊢
      exact ⟨_, List.mem_append_right _ (List.mem_singleton.mpr rfl), by
        simpa using hr.symm⟩
    · simp [register, hcase] at hr
  · intro r hr
    unfold get_current_user at hr
    split at hr
    · exact absurd hr (by simp)
    · split at hr
      · exact absurd hr (by simp)
      · split at hr
        · exact absurd hr (by simp)
        · rename_i payload _ uid u hfind
          exact ⟨u, List.mem_of_find?_eq_some hfind, by
            simpa using hr.symm⟩
  · intro tr htr
    unfold login at htr
    split at htr
    · exact absurd htr (by simp)
    · split at htr
      · have h := Except.ok.inj htr
        rw [← h]
      · exact absurd htr (by simp)

/-- Witness for C8: the projection of Ana's row ignores a replaced hash,
and registering Ana on the empty store returns the projection of the one
stored row. -/
theorem results_never_carry_password_hash_witness :
    User.model_validate { anaRow with hashed_password := bcrypt.hashpw "outro" 9 } =
      User.model_validate anaRow ∧
    (∃ v ∈ (register emptyStore ucAna 3 5).2.users,
      anaUser = User.model_validate v) := by
  have h := results_never_carry_password_hash anaRow (bcrypt.hashpw "outro" 9)
    emptyStore ucAna 3 5 (loginToken 1 0) 0 "ana@x.com" "secret1"
  exact ⟨h.2.2.2.2.2.1,
    h.2.2.2.2.2.2.2.1 anaUser (by decide)⟩

/-- A store in which Ana (user 1) owns task 7, which has a non-null
description. -/
def ownedStore : Store :=
  { users := [anaRow],
    tasks := [{ id := 7, title := "Ler livro", description := some "capítulo 3",
                status := .pending, user_id := 1,
                created_at := 10, updated_at := 10 }],
    nextUserId := 2, nextTaskId := 8 }

/-- Field accounting of the `setattr` loop: the applied row keeps `id`,
`user_id` and the timestamps, keeps every unset field, and takes every
explicitly supplied value. -/
theorem applyUpdates_fields (tu : TaskUpdate) (t t1 : DBTask)
    (h : applyUpdates tu t = some t1) :
    t1.id = t.id ∧ t1.user_id = t.user_id ∧ t1.created_at = t.created_at ∧
    t1.updated_at = t.updated_at ∧
    (tu.title = none → t1.title = t.title) ∧
    (∀ s, tu.title = some (some s) → t1.title = s) ∧
    (tu.description = none → t1.description = t.description) ∧
    (∀ d, tu.description = some d → t1.description = d) ∧
    (tu.status = none → t1.status = t.status) ∧
    (∀ st, tu.status = some (some st) → t1.status = st) := by
  unfold applyUpdates at h
  split at h
  · exact absurd h (by simp)
  · have h1 := Option.some.inj h
    subst h1
    refine ⟨rfl, rfl, rfl, rfl, ?_, ?_, ?_, ?_, ?_, ?_⟩
    · intro ht; simp [setField, ht]
    · intro s ht; simp [setField, ht]
    · intro hd; simp [hd]
    · intro d hd; simp [hd]
    · intro hs; simp [setField, hs]
    · intro st hs; simp [setField, hs]

/-- **C3.** For an `update_task` on a task `t` the caller owns, with a
payload the database accepts: every field not supplied keeps its previous
value, every supplied field takes the supplied value, `user_id` is never
changed (no reassignment is expressible in `TaskUpdate`), and
`updated_at` is refreshed to `now` whenever the update net-changes the
row (`onupdate` fires exactly when an `UPDATE` is flushed). -/
theorem update_only_supplied_fields (db : Store) (cu : User) (tid : Nat)
    (tu : TaskUpdate) (now : Nat) (t t1 : DBTask)
    (hfind : db.tasks.find? (fun x => x.id == tid && x.user_id == cu.id) = some t)
    (happ : applyUpdates tu t = some t1) :
    ∃ t2 : DBTask,
      update_task db cu tid tu now =
        (.ok (Task.model_validate t2),
         if t1 = t then db
         else { db with tasks := db.tasks.map (fun x => if x.id = t.id then t2 else x) }) ∧
      t2.user_id = t.user_id ∧
      (tu.title = none → t2.title = t.title) ∧
      (∀ s, tu.title = some (some s) → t2.title = s) ∧
      (tu.description = none → t2.description = t.description) ∧
      (∀ d, tu.description = some d → t2.description = d) ∧
      (tu.status = none → t2.status = t.status) ∧
      (∀ st, tu.status = some (some st) → t2.status = st) ∧
      (t1 = t → t2 = t) ∧
      (t1 ≠ t → t2.updated_at = now) := by
  obtain ⟨hid, huid, hcr, hup, ht1, ht2, hd1, hd2, hs1, hs2⟩ :=
    applyUpdates_fields tu t t1 happ
  by_cases hch : t1 = t
  · subst hch
    refine ⟨t1, ?_, huid, ht1, ht2, hd1, hd2, hs1, hs2, fun _ => rfl,
            fun hc => absurd rfl hc⟩
    simp [update_task, hfind, happ]
  · refine ⟨{ t1 with updated_at := now }, ?_, huid, ht1, ht2, hd1, hd2, hs1, hs2,
            fun hc => absurd hc hch, fun _ => rfl⟩
    simp [update_task, hfind, happ, hch]

/-- Witness for C3: updating task 7 with only `{status: completed}`
leaves title and description as they were, keeps the owner, and stamps
`updated_at` with the present time. -/
theorem update_only_supplied_fields_witness :
    ∃ t2 : DBTask,
      update_task ownedStore anaUser 7
          { title := none, description := none, status := some (some .completed) } 42 =
        (.ok (Task.model_validate t2),
         if ({ id := 7, title := "Ler livro", description := some "capítulo 3",
               status := .completed, user_id := 1,
               created_at := 10, updated_at := 10 } : DBTask) =
            ({ id := 7, title := "Ler livro", description := some "capítulo 3",
               status := .pending, user_id := 1,
               created_at := 10, updated_at := 10 } : DBTask) then ownedStore
         else { ownedStore with
                  tasks := ownedStore.tasks.map
                    (fun x => if x.id = 7 then t2 else x) }) ∧
      t2.user_id = 1 ∧
      t2.title = "Ler livro" ∧
      t2.status = .completed ∧
      t2.updated_at = 42 := by
  obtain ⟨t2, heq, huid, htt, _, hdd, _, _, hss, _, hfresh⟩ :=
    update_only_supplied_fields ownedStore anaUser 7
      { title := none, description := none, status := some (some .completed) } 42
      { id := 7, title := "Ler livro", description := some "capítulo 3",
        status := .pending, user_id := 1, created_at := 10, updated_at := 10 }
      { id := 7, title := "Ler livro", description := some "capítulo 3",
        status := .completed, user_id := 1, created_at := 10, updated_at := 10 }
      (by decide) (by decide)
  exact ⟨t2, heq, huid, htt rfl, hss .completed rfl, hfresh (by decide)⟩

/-- **C10.** `update_task` distinguishes an explicitly supplied `null`
from an absent field: `{description: null}` on an owned task stores a
null description (title and status untouched), while a payload omitting
`description` entirely — here the empty payload — leaves the stored row,
and the store, exactly as they were. -/
theorem update_null_vs_absent_description (db : Store) (cu : User)
    (tid now : Nat) (t : DBTask)
    (hfind : db.tasks.find? (fun x => x.id == tid && x.user_id == cu.id) = some t) :
    (∃ tk : Task,
      (update_task db cu tid
          { title := none, description := some none, status := none } now).1 =
        .ok tk ∧
      tk.description = none ∧ tk.title = t.title ∧ tk.status = t.status) ∧
    update_task db cu tid { title := none, description := none, status := none } now =
      (.ok (Task.model_validate t), db) := by
  have happ : applyUpdates { title := none, description := some none, status := none } t =
      some { t with description := none } := by
    simp [applyUpdates, setField]
  constructor
  · by_cases hd : ({ t with description := none } : DBTask) = t
    · refine ⟨Task.model_validate t, ?_, ?_, rfl, rfl⟩
      · simp [update_task, hfind, happ, hd]
      · have hnone : t.description = none := by
          simpa using (congrArg DBTask.description hd).symm
        simp [Task.model_validate, hnone]
    · refine ⟨Task.model_validate { t with description := none, updated_at := now },
              ?_, rfl, rfl, rfl⟩
      simp [update_task, hfind, happ, hd]
  · have happ2 : applyUpdates { title := none, description := none, status := none } t =
        some t := by
      simp [applyUpdates, setField]
    simp [update_task, hfind, happ2]

/-- Witness for C10 on task 7 (description `"capítulo 3"`): the explicit
null clears the description; the empty payload changes nothing. -/
theorem update_null_vs_absent_description_witness :
    (∃ tk : Task,
      (update_task ownedStore anaUser 7
          { title := none, description := some none, status := none } 42).1 =
        .ok tk ∧
      tk.description = none ∧ tk.title = "Ler livro" ∧ tk.status = .pending) ∧
    update_task ownedStore anaUser 7
        { title := none, description := none, status := none } 42 =
      (.ok (Task.model_validate
        { id := 7, title := "Ler livro", description := some "capítulo 3",
          status := .pending, user_id := 1, created_at := 10, updated_at := 10 }),
       ownedStore) :=
  update_null_vs_absent_description ownedStore anaUser 7 42
    { id := 7, title := "Ler livro", description := some "capítulo 3",
      status := .pending, user_id := 1, created_at := 10, updated_at := 10 }
    (by decide)

/-- The default `ORDER BY created_at DESC` relation is total. -/
instance : IsTotal DBTask (sortRel .created_at true) :=
  ⟨fun a b => by simp [sortRel, keyLeB]; omega⟩

/-- The default `ORDER BY created_at DESC` relation is transitive. -/
instance : IsTrans DBTask (sortRel .created_at true) :=
  ⟨fun a b c hab hbc => by
    simp [sortRel, keyLeB] at hab hbc ⊢
    omega⟩

/-- **C7.** `get_tasks` under the default sort (`created_at` descending):
the owner's filtered tasks are ordered by `created_at` descending, the
first `(page-1)*limit` of them skipped, at most `limit` of the rest
returned (`length = min limit (n - offset)`, so 15 tasks at
`page=2, limit=10` give the remaining 5, in the sorted order); an offset
at or past the end yields the empty list, never an error. -/
theorem list_pagination_offset (db : Store) (cu : User) (page limit : Nat)
    (_hp : 1 ≤ page) (_hl : 1 ≤ limit) :
    ∃ ts : List Task,
      get_tasks db cu none none page limit "created_at" "desc" = .ok ts ∧
      ts = (((List.insertionSort (sortRel .created_at true)
                (db.tasks.filter (fun t => t.user_id == cu.id))).drop
              ((page - 1) * limit)).take limit).map Task.model_validate ∧
      ts.length = min limit
        ((db.tasks.filter (fun t => t.user_id == cu.id)).length - (page - 1) * limit) ∧
      ((db.tasks.filter (fun t => t.user_id == cu.id)).length ≤ (page - 1) * limit →
        ts = []) ∧
      ts.Pairwise (fun a b => b.created_at ≤ a.created_at) := by
  refine ⟨(((List.insertionSort (sortRel .created_at true)
              (db.tasks.filter (fun t => t.user_id == cu.id))).drop
            ((page - 1) * limit)).take limit).map Task.model_validate,
          by
            have h1 : "created_at".isEmpty = false := by decide
            have h2 : (pyLower "desc" == "desc") = true := by decide
            simp [get_tasks, getColumn?, h1, h2], rfl, ?_, ?_, ?_⟩
  · simp [List.length_take, List.length_drop, List.length_insertionSort]
  · intro hle
    have hnil : (List.insertionSort (sortRel .created_at true)
        (db.tasks.filter (fun t => t.user_id == cu.id))).drop ((page - 1) * limit) = [] := by
      apply List.drop_eq_nil_of_le
      simpa [List.length_insertionSort] using hle
    simp [hnil]
  · have hs : List.Pairwise (sortRel .created_at true)
        (List.insertionSort (sortRel .created_at true)
          (db.tasks.filter (fun t => t.user_id == cu.id))) :=
      List.sorted_insertionSort _ _
    have hsub : List.Sublist
        (((List.insertionSort (sortRel .created_at true)
            (db.tasks.filter (fun t => t.user_id == cu.id))).drop
          ((page - 1) * limit)).take limit)
        (List.insertionSort (sortRel .created_at true)
          (db.tasks.filter (fun t => t.user_id == cu.id))) :=
      (List.take_sublist _ _).trans (List.drop_sublist _ _)
    have hpw := hs.sublist hsub
    rw [List.pairwise_map]
    exact hpw.imp (fun hab => by simpa [sortRel, keyLeB, Task.model_validate] using hab)

/-- Fifteen tasks all owned by Ana (user 1), with distinct creation
times. -/
def manyTasks : List DBTask :=
  (List.range 15).map (fun i =>
    { id := i + 1, title := "T" ++ toString (i + 1), description := none,
      status := .pending, user_id := 1,
      created_at := 100 + i, updated_at := 100 + i })

/-- A store with Ana's 15 tasks, for the pagination example. -/
def pagedStore : Store :=
  { users := [anaRow], tasks := manyTasks, nextUserId := 2, nextTaskId := 16 }

/-- Witness for C7: over Ana's 15 tasks, `page=2, limit=10` returns the
remaining `min 10 (15-10) = 5` in the sorted order, and `page=3` returns
the empty list — both `.ok`, never an error. -/
theorem list_pagination_offset_witness :
    (∃ ts : List Task,
      get_tasks pagedStore anaUser none none 2 10 "created_at" "desc" = .ok ts ∧
      ts = (((List.insertionSort (sortRel .created_at true)
                (pagedStore.tasks.filter (fun t => t.user_id == anaUser.id))).drop
              ((2 - 1) * 10)).take 10).map Task.model_validate ∧
      ts.length = min 10
        ((pagedStore.tasks.filter (fun t => t.user_id == anaUser.id)).length - (2 - 1) * 10) ∧
      ((pagedStore.tasks.filter (fun t => t.user_id == anaUser.id)).length ≤ (2 - 1) * 10 →
        ts = []) ∧
      ts.Pairwise (fun a b => b.created_at ≤ a.created_at)) ∧
    (∃ ts : List Task,
      get_tasks pagedStore anaUser none none 3 10 "created_at" "desc" = .ok ts ∧
      ts = (((List.insertionSort (sortRel .created_at true)
                (pagedStore.tasks.filter (fun t => t.user_id == anaUser.id))).drop
              ((3 - 1) * 10)).take 10).map Task.model_validate ∧
      ts.length = min 10
        ((pagedStore.tasks.filter (fun t => t.user_id == anaUser.id)).length - (3 - 1) * 10) ∧
      ((pagedStore.tasks.filter (fun t => t.user_id == anaUser.id)).length ≤ (3 - 1) * 10 →
        ts = []) ∧
      ts.Pairwise (fun a b => b.created_at ≤ a.created_at)) :=
  ⟨list_pagination_offset pagedStore anaUser 2 10 (by decide) (by decide),
   list_pagination_offset pagedStore anaUser 3 10 (by decide) (by decide)⟩

/-- A store with two of Ana's tasks, created at 10 and 20. -/
def twoTaskStore : Store :=
  { users := [anaRow],
    tasks := [{ id := 1, title := "Antiga", description := none,
                status := .pending, user_id := 1, created_at := 10, updated_at := 10 },
              { id := 2, title := "Nova", description := none,
                status := .pending, user_id := 1, created_at := 20, updated_at := 20 }],
    nextUserId := 2, nextTaskId := 3 }

/-- **C4 (code bug).** The `enum=` keyword of `Query` never validates at
runtime, so invalid sort parameters are not a 422 `ValidationError`:
`sort_order = "sideways"` is silently treated as ascending (contrast the
valid `"desc"` call, which reverses the order), and an unknown
`sort_by = "priority"` raises `AttributeError` inside the handler — a
500, after the owner filter already touched the store. -/
theorem sort_params_not_validated_at_boundary :
    get_tasks twoTaskStore anaUser none none 1 10 "created_at" "sideways" =
      .ok [{ id := 1, title := "Antiga", description := none, status := .pending,
             user_id := 1, created_at := 10, updated_at := 10 },
           { id := 2, title := "Nova", description := none, status := .pending,
             user_id := 1, created_at := 20, updated_at := 20 }] ∧
    get_tasks twoTaskStore anaUser none none 1 10 "created_at" "desc" =
      .ok [{ id := 2, title := "Nova", description := none, status := .pending,
             user_id := 1, created_at := 20, updated_at := 20 },
           { id := 1, title := "Antiga", description := none, status := .pending,
             user_id := 1, created_at := 10, updated_at := 10 }] ∧
    get_tasks twoTaskStore anaUser none none 1 10 "priority" "desc" =
      .error internalServerError := by
  refine ⟨?_, ?_, ?_⟩ <;> rfl

end TarefasApi
